import Mathlib

/-!
Verification of the Oura MCP server (`src/server.py`).

The development shallowly embeds the data model and the pure transformation
logic of the server. JSON values are modelled by the inductive type `Json`
(numeric JSON values are modelled as integers: every numeric field the
transforms touch is an integral number of seconds or a score). Python
dictionaries are modelled as association lists in insertion order; Python
exceptions are modelled with `Option`/`Except`.
-/

/-- Model of a JSON value. Python `None` is `Json.null`; a Python `dict`
decoded from JSON is `Json.obj` with its keys in insertion order. -/
inductive Json where
  | null : Json
  | bool : Bool → Json
  | int : Int → Json
  | str : String → Json
  | arr : List Json → Json
  | obj : List (String × Json) → Json

/-- Python truthiness of a decoded JSON value: `None`, `False`, `0`, `""`,
`[]` and `\x7b\x7d` are falsy, everything else truthy. -/
def jsonTruthy : Json → Bool
  | Json.null => false
  | Json.bool b => b
  | Json.int n => n != 0
  | Json.str s => s != ""
  | Json.arr l => !l.isEmpty
  | Json.obj l => !l.isEmpty

/-- Whether a JSON value is `null` (Python `None`). -/
def Json.isNull : Json → Bool
  | Json.null => true
  | _ => false

/-- Python `d.get(key, default)` on a decoded JSON object: the stored value
if the key is present (even if that value is `null`), otherwise `default`. -/
def pyGetD (item : List (String × Json)) (key : String) (dflt : Json) : Json :=
  match item.lookup key with
  | some v => v
  | none => dflt

/-- Python `d.get(key)`: the stored value, or `None` when the key is absent.
A stored JSON `null` and an absent key are indistinguishable, as in Python. -/
def pyGet (item : List (String × Json)) (key : String) : Json :=
  pyGetD item key Json.null

/-- Python `s.endswith(suffix)`. -/
def pyEndsWith (s sfx : String) : Bool :=
  List.isSuffixOf sfx.data s.data

/-- Hours component of `_format_duration` (server.py:136):
Python `divmod(seconds, 3600)` is floor division, i.e. `Int.fdiv`. -/
def durHours (seconds : Int) : Int := Int.fdiv seconds 3600

/-- Remainder after hours in `_format_duration` (server.py:136): Python `%`
with a positive divisor, i.e. `Int.fmod`. -/
def durRemainder (seconds : Int) : Int := Int.fmod seconds 3600

/-- Minutes component of `_format_duration` (server.py:137). -/
def durMinutes (seconds : Int) : Int := Int.fdiv (durRemainder seconds) 60

/-- Seconds component of `_format_duration` (server.py:137). -/
def durSecs (seconds : Int) : Int := Int.fmod (durRemainder seconds) 60

/-- One part of the duration string: Python
`f-string n unit, with an "s" appended when n != 1` (server.py:141-145). -/
def pluralize (n : Int) (unit : String) : String :=
  toString n ++ " " ++ unit ++ (if n ≠ 1 then "s" else "")

/-- `OuraClient._format_duration` (server.py:126-150): parts are emitted for
components strictly greater than zero; if no part is emitted the result is
the literal "0 seconds"; otherwise the parts joined by ", ". -/
def format_duration (seconds : Int) : String :=
  let parts : List String :=
    (if durHours seconds > 0 then [pluralize (durHours seconds) "hour"] else []) ++
    (if durMinutes seconds > 0 then [pluralize (durMinutes seconds) "minute"] else []) ++
    (if durSecs seconds > 0 then [pluralize (durSecs seconds) "second"] else [])
  if parts.isEmpty then "0 seconds" else String.intercalate ", " parts

/-- Modelled from the spec's words (for the refinement comparison of claim
C1, not from the source): hours = seconds div 3600, minutes = remainder div
60, seconds = final remainder, with integer division truncating toward zero
(`Int.tdiv`/`Int.tmod`); a comma-joined list of the *nonzero* components
with singular/plural nouns; "0 seconds" when all three are zero. -/
def format_duration_spec (seconds : Int) : String :=
  let hours := Int.tdiv seconds 3600
  let remainder := Int.tmod seconds 3600
  let minutes := Int.tdiv remainder 60
  let secs := Int.tmod remainder 60
  let parts : List String :=
    (if hours ≠ 0 then [pluralize hours "hour"] else []) ++
    (if minutes ≠ 0 then [pluralize minutes "minute"] else []) ++
    (if secs ≠ 0 then [pluralize secs "second"] else [])
  if parts.isEmpty then "0 seconds" else String.intercalate ", " parts

/-- Sum of the components that `_format_duration` actually names in its
output string, weighted back into seconds: a component is named exactly when
it is strictly positive (server.py:140-145). -/
def emittedDurationSum (seconds : Int) : Int :=
  (if durHours seconds > 0 then durHours seconds * 3600 else 0) +
  (if durMinutes seconds > 0 then durMinutes seconds * 60 else 0) +
  (if durSecs seconds > 0 then durSecs seconds else 0)

/-- A calendar date, the result of Python `date.fromisoformat`. -/
structure Date where
  year : Nat
  month : Nat
  day : Nat
deriving DecidableEq

/-- A timestamp, the result of Python `datetime.fromisoformat`. Only the
fields that `strftime` with the pattern used by the server reads are kept
beyond the date; the UTC offset, once validated, does not influence them. -/
structure DateTime where
  year : Nat
  month : Nat
  day : Nat
  hour : Nat
  minute : Nat
  second : Nat
deriving DecidableEq

/-- Decimal digit value of a character, if it is a digit. -/
def digitVal (c : Char) : Option Nat :=
  if c.isDigit then some (c.toNat - 48) else none

/-- Two-digit decimal number. -/
def twoDigits (c1 c2 : Char) : Option Nat := do
  let d1 ← digitVal c1
  let d2 ← digitVal c2
  pure (d1 * 10 + d2)

/-- Four-digit decimal number. -/
def fourDigits (c1 c2 c3 c4 : Char) : Option Nat := do
  let hi ← twoDigits c1 c2
  let lo ← twoDigits c3 c4
  pure (hi * 100 + lo)

/-- Gregorian leap-year rule, as in Python `calendar.isleap`. -/
def isLeapYear (y : Nat) : Bool :=
  y % 4 == 0 && (y % 100 != 0 || y % 400 == 0)

/-- Number of days in a month. -/
def daysInMonth (y m : Nat) : Nat :=
  if m == 2 then (if isLeapYear y then 29 else 28)
  else if m == 4 || m == 6 || m == 9 || m == 11 then 30
  else 31

/-- Modelled behaviour of CPython `date.fromisoformat` on the canonical
ISO form the server documents and the vendor emits: exactly `YYYY-MM-DD`
with a valid calendar date; anything else is a `ValueError`, i.e. `none`. -/
def date_fromisoformat (s : String) : Option Date :=
  match s.data with
  | [y1, y2, y3, y4, '-', m1, m2, '-', d1, d2] => do
    let y ← fourDigits y1 y2 y3 y4
    let m ← twoDigits m1 m2
    let d ← twoDigits d1 d2
    if 1 ≤ y ∧ 1 ≤ m ∧ m ≤ 12 ∧ 1 ≤ d ∧ d ≤ daysInMonth y m then
      pure (Date.mk y m d)
    else none
  | _ => none

/-- A valid trailing UTC-offset suffix of an ISO timestamp (possibly empty):
sign, two hour digits, colon, two minute digits. -/
def validOffset : List Char → Bool
  | [] => true
  | sign :: o1 :: o2 :: ':' :: o3 :: o4 :: [] =>
    (sign == '+' || sign == '-') &&
    (match twoDigits o1 o2, twoDigits o3 o4 with
     | some hh, some mm => hh ≤ 23 && mm ≤ 59
     | _, _ => false)
  | _ => false

/-- What may follow the seconds of an ISO timestamp: an optional fractional
part of one to six digits, then an optional UTC offset. -/
def afterSecondsOk (cs : List Char) : Bool :=
  match cs with
  | '.' :: rest =>
    let ds := rest.takeWhile Char.isDigit
    !ds.isEmpty && ds.length ≤ 6 && validOffset (rest.drop ds.length)
  | _ => validOffset cs

/-- Time-of-day part of an ISO timestamp: `HH:MM`, optionally `:SS` with an
optional fraction, optionally a UTC offset. -/
def parseTimePart (cs : List Char) : Option (Nat × Nat × Nat) :=
  match cs with
  | h1 :: h2 :: ':' :: m1 :: m2 :: rest => do
    let h ← twoDigits h1 h2
    let m ← twoDigits m1 m2
    if h ≤ 23 ∧ m ≤ 59 then
      match rest with
      | [] => pure (h, m, 0)
      | ':' :: s1 :: s2 :: rest2 => do
        let s ← twoDigits s1 s2
        if s ≤ 59 ∧ afterSecondsOk rest2 then pure (h, m, s) else none
      | other => if validOffset other then pure (h, m, 0) else none
    else none
  | _ => none

/-- Modelled behaviour of CPython `datetime.fromisoformat` on the grammar
relevant to the vendor's timestamps: a calendar date `YYYY-MM-DD`,
optionally followed by a `T` or space separator and a time
`HH:MM[:SS[.ffffff]]` with an optional `+HH:MM`-style UTC offset. Any
string outside this grammar is a `ValueError`, i.e. `none`. -/
def datetime_fromisoformat (s : String) : Option DateTime :=
  match s.data with
  | y1 :: y2 :: y3 :: y4 :: '-' :: mo1 :: mo2 :: '-' :: d1 :: d2 :: rest => do
    let y ← fourDigits y1 y2 y3 y4
    let mo ← twoDigits mo1 mo2
    let d ← twoDigits d1 d2
    if 1 ≤ y ∧ 1 ≤ mo ∧ mo ≤ 12 ∧ 1 ≤ d ∧ d ≤ daysInMonth y mo then
      match rest with
      | [] => pure (DateTime.mk y mo d 0 0 0)
      | sep :: timecs =>
        if sep == 'T' || sep == ' ' then
          (parseTimePart timecs).map (fun t => DateTime.mk y mo d t.1 t.2.1 t.2.2)
        else none
    else none
  | _ => none

/-- Python `s.replace(pat, rep)` on character lists: all non-overlapping
occurrences, scanning left to right. The first argument is recursion fuel;
each step consumes at least one input character, so fuel equal to the
input length (as supplied by `pyReplace`) is always enough. -/
def replaceChars (pat rep : List Char) : Nat → List Char → List Char
  | 0, cs => cs
  | _ + 1, [] => []
  | fuel + 1, c :: rest =>
    if !pat.isEmpty && pat.isPrefixOf (c :: rest) then
      rep ++ replaceChars pat rep fuel ((c :: rest).drop pat.length)
    else
      c :: replaceChars pat rep fuel rest

/-- Python `s.replace(pat, rep)` on strings. -/
def pyReplace (s pat rep : String) : String :=
  String.mk (replaceChars pat.data rep.data s.data.length s.data)

/-- Left zero-padding to two digits, as `strftime` does. -/
def pad2 (n : Nat) : String :=
  if n < 10 then "0" ++ toString n else toString n

/-- Python `dt.strftime` with the 12-hour pattern the server uses
(server.py:167): zero-padded 12-hour clock hour, minutes, and AM/PM. -/
def strftime_IMp (dt : DateTime) : String :=
  pad2 ((dt.hour + 11) % 12 + 1) ++ ":" ++ pad2 dt.minute ++ " " ++
    (if dt.hour < 12 then "AM" else "PM")

/-- `OuraClient._format_time` (server.py:152-169): empty input yields "";
otherwise the input with every "Z" replaced by "+00:00" is parsed as an ISO
timestamp and rendered as a 12-hour clock time; if parsing fails the
original string is returned unchanged. -/
def format_time (timestamp : String) : String :=
  if timestamp = "" then ""
  else
    match datetime_fromisoformat (pyReplace timestamp "Z" "+00:00") with
    | some dt => strftime_IMp dt
    | none => timestamp

/-- Conversion of a decoded JSON value to the integer `seconds` argument of
`_format_duration`: Python accepts `int` and `bool` (a subclass of `int`)
and raises `TypeError` on anything else. -/
def jsonToSeconds : Json → Option Int
  | Json.int n => some n
  | Json.bool b => some (if b then 1 else 0)
  | _ => none

/-- One duration field of a sleep record (server.py:70-83):
`_format_duration(item.get(key, 0))`; `none` models the `TypeError` a
non-numeric stored value would raise. -/
def durationField (item : List (String × Json)) (key : String) : Option String :=
  (jsonToSeconds (pyGetD item key (Json.int 0))).map format_duration

/-- One bedtime field of a sleep record (server.py:86-87):
`_format_time(item.get(key, ""))`. A falsy stored value returns `""`
(the guard at server.py:162); a truthy non-string raises, i.e. `none`. -/
def timeField (item : List (String × Json)) (key : String) : Option String :=
  match pyGetD item key (Json.str "") with
  | Json.str s => some (format_time s)
  | v => if jsonTruthy v then none else some ""

/-- Readiness extraction from a sleep record (server.py:90-94):
`readiness = item.get("readiness", an empty dict)`; when truthy it must be
a dict (otherwise `.get` raises, i.e. `none`) and yields
`(readiness.get("score"), readiness.get("contributors", an empty dict))`;
when falsy the pair is `(None, an empty dict)`. -/
def readinessFields (item : List (String × Json)) : Option (Json × Json) :=
  let readiness := pyGetD item "readiness" (Json.obj [])
  if jsonTruthy readiness then
    match readiness with
    | Json.obj r => some (pyGet r "score", pyGetD r "contributors" (Json.obj []))
    | _ => none
  else some (Json.null, Json.obj [])

/-- The fixed dictionary built for every sleep record (server.py:97-114). -/
def sleepBase (item : List (String × Json))
    (awake deep light rem total inBed bstart bend : String) :
    List (String × Json) :=
  [("day", pyGet item "day"),
   ("bedtime_start", Json.str bstart),
   ("bedtime_end", Json.str bend),
   ("awake_time", Json.str awake),
   ("deep_sleep_duration", Json.str deep),
   ("light_sleep_duration", Json.str light),
   ("rem_sleep_duration", Json.str rem),
   ("total_sleep_duration", Json.str total),
   ("time_in_bed", Json.str inBed),
   ("efficiency", pyGet item "efficiency"),
   ("latency", pyGet item "latency"),
   ("restless_periods", pyGet item "restless_periods"),
   ("average_breath", pyGet item "average_breath"),
   ("average_heart_rate", pyGet item "average_heart_rate"),
   ("average_hrv", pyGet item "average_hrv"),
   ("lowest_heart_rate", pyGet item "lowest_heart_rate")]

/-- The readiness keys appended to a sleep record when and only when the
extracted score is not `None` (server.py:117-119). -/
def sleepReadinessPairs (rf : Json × Json) : List (String × Json) :=
  if rf.1.isNull then []
  else [("readiness_score", rf.1), ("readiness_contributors", rf.2)]

/-- The per-record transform of `OuraClient.get_sleep_data`
(server.py:68-121). -/
def transformSleepItem (item : List (String × Json)) :
    Option (List (String × Json)) := do
  let awake ← durationField item "awake_time"
  let deep ← durationField item "deep_sleep_duration"
  let light ← durationField item "light_sleep_duration"
  let rem ← durationField item "rem_sleep_duration"
  let total ← durationField item "total_sleep_duration"
  let inBed ← durationField item "time_in_bed"
  let bstart ← timeField item "bedtime_start"
  let bend ← timeField item "bedtime_end"
  let rf ← readinessFields item
  pure (sleepBase item awake deep light rem total inBed bstart bend ++
    sleepReadinessPairs rf)

/-- Editing of one already-id-filtered field of a daily_sleep record
(server.py:210-213): the value under `total_sleep_duration`, if that key is
present, is replaced by its formatted duration. -/
def editDailySleepField (kv : String × Json) : Option (String × Json) :=
  if kv.1 = "total_sleep_duration" then
    (jsonToSeconds kv.2).map (fun n => (kv.1, Json.str (format_duration n)))
  else some kv

/-- `editDailySleepField` applied pointwise, in order. -/
def editDailySleepFields : List (String × Json) → Option (List (String × Json))
  | [] => some []
  | kv :: rest => do
    let kv2 ← editDailySleepField kv
    let rest2 ← editDailySleepFields rest
    pure (kv2 :: rest2)

/-- The per-record transform of `OuraClient.get_daily_sleep_data`
(server.py:205-215): drop `id`, then format `total_sleep_duration` if
present. -/
def transformDailySleepItem (item : List (String × Json)) :
    Option (List (String × Json)) :=
  editDailySleepFields (item.filter (fun kv => kv.1 != "id"))

/-- The per-record transform of `OuraClient.get_readiness_data`
(server.py:254-261): drop `id`, every key ending in `_timestamp`, and
`timestamp`; keep everything else unchanged. -/
def transformReadinessItem (item : List (String × Json)) :
    List (String × Json) :=
  item.filter (fun kv =>
    kv.1 != "id" && !pyEndsWith kv.1 "_timestamp" && kv.1 != "timestamp")

/-- The per-record transform of `OuraClient.get_resilience_data`
(server.py:300-303): drop `id`. -/
def transformResilienceItem (item : List (String × Json)) :
    List (String × Json) :=
  item.filter (fun kv => kv.1 != "id")

/-- The `data` array of a vendor response body (server.py:68/205/254/300):
`raw_data.get("data", an empty list)` over a decoded JSON body. A non-dict
body or a non-list `data` value raises in Python, i.e. `none`. -/
def getDataArray : Json → Option (List Json)
  | Json.obj fields =>
    match pyGetD fields "data" (Json.arr []) with
    | Json.arr items => some items
    | _ => none
  | _ => none

/-- The per-record transform applied to each element of the `data` array in
order; every element must be a dict (a non-dict element raises in Python). -/
def transformItems (f : List (String × Json) → Option (List (String × Json))) :
    List Json → Option (List Json)
  | [] => some []
  | Json.obj item :: rest => do
    let out ← f item
    let rest2 ← transformItems f rest
    pure (Json.obj out :: rest2)
  | _ :: _ => none

/-- The response reshaping shared by the four endpoint methods: read the
`data` array, transform each record, and wrap the result back under a
`data` key (server.py:63-124, 199-218, 248-264, 294-306). -/
def endpointTransform
    (f : List (String × Json) → Option (List (String × Json)))
    (raw : Json) : Option Json := do
  let items ← getDataArray raw
  let out ← transformItems f items
  pure (Json.obj [("data", Json.arr out)])

/-- An HTTP response from the vendor, as seen by `httpx`. -/
structure HttpResponse where
  status_code : Nat
  text : String
  jsonBody : Json

/-- A Python exception crossing the tool boundary: `ValueError` and every
other `Exception` are the two classes the tool layer distinguishes. -/
inductive PyError where
  | valueError : String → PyError
  | exception : String → PyError

/-- The status check each endpoint method performs on the vendor response
(server.py:58-60, 195-197, 244-246, 290-292): any status other than 200
raises an error carrying the status and the body text. -/
def raiseForStatus (resp : HttpResponse) : Except String Json :=
  if resp.status_code ≠ 200 then
    Except.error ("Error " ++ toString resp.status_code ++ ": " ++ resp.text)
  else Except.ok resp.jsonBody

/-- Outcome of the network calls a tool invocation performs, supplied as an
environment: the probe request of `validate_oura_token`, and the data
request of the endpoint method. `Except.error` is a transport failure. -/
structure Env where
  probeStatus : Except String Nat
  response : Except String HttpResponse

/-- `validate_oura_token` (server.py:331-355): `False` exactly when the
probe raised (any exception) or returned status 401. -/
def validate_oura_token (probe : Except String Nat) : Bool :=
  match probe with
  | Except.error _ => false
  | Except.ok status => status != 401

/-- `create_oura_client` (server.py:358-375): an empty token and a token
rejected by the live probe each raise a `ValueError`. -/
def create_oura_client (env : Env) (access_token : String) :
    Except PyError Unit :=
  if access_token = "" then
    Except.error (PyError.valueError "Access token is required")
  else if validate_oura_token env.probeStatus then Except.ok ()
  else
    Except.error (PyError.valueError
      "Invalid Oura API token. Please check your Personal Access Token and try again.")

/-- `parse_date` (server.py:313-328): `date.fromisoformat`, re-raised as a
`ValueError` with a descriptive message on malformed input. -/
def parse_date (date_str : String) : Except PyError Date :=
  match date_fromisoformat date_str with
  | some d => Except.ok d
  | none =>
    Except.error (PyError.valueError
      ("Invalid date format: " ++ date_str ++ ". Expected format: YYYY-MM-DD"))

/-- An endpoint method of `OuraClient`: the HTTP GET (whose outcome is the
environment's `response`), the status check, and the response reshaping.
The `TypeError` message stands for whichever built-in exception a
malformed body raises; only its class (not `ValueError`) matters to the
tool layer. -/
def clientCall (resp : Except String HttpResponse)
    (f : List (String × Json) → Option (List (String × Json))) :
    Except PyError Json :=
  match resp with
  | Except.error m => Except.error (PyError.exception m)
  | Except.ok r =>
    match raiseForStatus r with
    | Except.error m => Except.error (PyError.exception m)
    | Except.ok raw =>
      match endpointTransform f raw with
      | some out => Except.ok out
      | none => Except.error (PyError.exception "TypeError")

/-- The `try/except` boundary shared by all six tools (server.py:400-410
and its five copies): a `ValueError` becomes an error object tagged
`invalid_token`; any other exception becomes one tagged `api_error` with
the tool's failure prefix. -/
def toolResult (failPrefix : String) (r : Except PyError Json) : Json :=
  match r with
  | Except.ok j => j
  | Except.error (PyError.valueError m) =>
    Json.obj [("error", Json.str m), ("type", Json.str "invalid_token")]
  | Except.error (PyError.exception m) =>
    Json.obj [("error", Json.str (failPrefix ++ m)),
              ("type", Json.str "api_error")]

/-- The body shared by the three date-range tools (server.py:387-410,
413-436, 439-462): build the client (validating the token), parse both
dates, call the endpoint, and convert any exception at the boundary. -/
def dateRangeTool (failPrefix : String)
    (f : List (String × Json) → Option (List (String × Json)))
    (env : Env) (access_token start_date end_date : String) : Json :=
  toolResult failPrefix (do
    let _ ← create_oura_client env access_token
    let _ ← parse_date start_date
    let _ ← parse_date end_date
    clientCall env.response f)

/-- The body shared by the three today-tools (server.py:466-532): build the
client, call the endpoint for today, convert any exception. -/
def todayTool (failPrefix : String)
    (f : List (String × Json) → Option (List (String × Json)))
    (env : Env) (access_token : String) : Json :=
  toolResult failPrefix (do
    let _ ← create_oura_client env access_token
    clientCall env.response f)

/-- Tool `get_sleep_data` (server.py:387-410). -/
def get_sleep_data_tool : Env → String → String → String → Json :=
  dateRangeTool "Failed to fetch sleep data: " transformSleepItem

/-- Tool `get_readiness_data` (server.py:413-436). -/
def get_readiness_data_tool : Env → String → String → String → Json :=
  dateRangeTool "Failed to fetch readiness data: "
    (fun item => some (transformReadinessItem item))

/-- Tool `get_resilience_data` (server.py:439-462). -/
def get_resilience_data_tool : Env → String → String → String → Json :=
  dateRangeTool "Failed to fetch resilience data: "
    (fun item => some (transformResilienceItem item))

/-- Tool `get_today_sleep_data` (server.py:466-486). -/
def get_today_sleep_data_tool : Env → String → Json :=
  todayTool "Failed to fetch today\x27s sleep data: " transformSleepItem

/-- Tool `get_today_readiness_data` (server.py:489-509). -/
def get_today_readiness_data_tool : Env → String → Json :=
  todayTool "Failed to fetch today\x27s readiness data: "
    (fun item => some (transformReadinessItem item))

/-- Tool `get_today_resilience_data` (server.py:512-532). -/
def get_today_resilience_data_tool : Env → String → Json :=
  todayTool "Failed to fetch today\x27s resilience data: "
    (fun item => some (transformResilienceItem item))

/-- The two well-formed result shapes of a tool invocation: a data object
or an error object tagged with an error kind. -/
def resultShaped (j : Json) : Prop :=
  (∃ arr, j = Json.obj [("data", Json.arr arr)]) ∨
  (∃ m t, j = Json.obj [("error", Json.str m), ("type", Json.str t)])

/-- The keys of the dictionary `get_sleep_data` builds for every record
(server.py:97-114), in construction order. -/
def sleepFixedKeys : List String :=
  ["day", "bedtime_start", "bedtime_end", "awake_time", "deep_sleep_duration",
   "light_sleep_duration", "rem_sleep_duration", "total_sleep_duration",
   "time_in_bed", "efficiency", "latency", "restless_periods",
   "average_breath", "average_heart_rate", "average_hrv", "lowest_heart_rate"]

/-- The error object the tool boundary returns for an empty token. -/
def emptyTokenError : Json :=
  Json.obj [("error", Json.str "Access token is required"),
            ("type", Json.str "invalid_token")]

/-- A benign environment: the probe succeeds with 200 and the data request
returns 200 with an empty `data` array. -/
def okDataEnv : Env :=
  Env.mk (Except.ok 200)
    (Except.ok (HttpResponse.mk 200 "" (Json.obj [("data", Json.arr [])])))

/-- The record `transformSleepItem` produces from an empty input record:
every duration defaults to "0 seconds", both bedtimes to "", every
pass-through field to `null`, and no readiness keys are added. -/
def sleepEmptyOut : List (String × Json) :=
  [("day", Json.null),
   ("bedtime_start", Json.str ""),
   ("bedtime_end", Json.str ""),
   ("awake_time", Json.str "0 seconds"),
   ("deep_sleep_duration", Json.str "0 seconds"),
   ("light_sleep_duration", Json.str "0 seconds"),
   ("rem_sleep_duration", Json.str "0 seconds"),
   ("total_sleep_duration", Json.str "0 seconds"),
   ("time_in_bed", Json.str "0 seconds"),
   ("efficiency", Json.null),
   ("latency", Json.null),
   ("restless_periods", Json.null),
   ("average_breath", Json.null),
   ("average_heart_rate", Json.null),
   ("average_hrv", Json.null),
   ("lowest_heart_rate", Json.null)]

/-- A stubbed daily_sleep vendor record. -/
def dailySleepItem0 : List (String × Json) :=
  [("day", Json.str "2024-01-01"), ("total_sleep_duration", Json.int 27000),
   ("id", Json.str "abc")]

/-- The transform of `dailySleepItem0`. -/
def dailySleepOut0 : List (String × Json) :=
  [("day", Json.str "2024-01-01"),
   ("total_sleep_duration", Json.str "7 hours, 30 minutes")]

theorem durHours_eq (s : Int) : durHours s = s / 3600 :=
  Int.fdiv_eq_ediv s (by norm_num)

theorem durRemainder_eq (s : Int) : durRemainder s = s % 3600 :=
  Int.fmod_eq_emod s (by norm_num)

theorem durMinutes_eq (s : Int) : durMinutes s = s % 3600 / 60 := by
  unfold durMinutes
  rw [durRemainder_eq]
  exact Int.fdiv_eq_ediv _ (by norm_num)

theorem durSecs_eq (s : Int) : durSecs s = s % 3600 % 60 := by
  unfold durSecs
  rw [durRemainder_eq]
  exact Int.fmod_eq_emod _ (by norm_num)

/-- Claim C1 (counterexample): the claim quantifies over every integer
input and prescribes truncation toward zero, but Python `divmod` floors,
so at the input -1 the code emits "59 minutes, 59 seconds" while the
claimed decomposition yields "-1 seconds". -/
theorem format_duration_truncation_counterexample :
    format_duration (-1) = "59 minutes, 59 seconds" ∧
    format_duration_spec (-1) = "-1 seconds" ∧
    format_duration (-1) ≠ format_duration_spec (-1) := by decide

/-- Claim C1 (amended): for every nonnegative integer input,
`format_duration` agrees with the claimed decomposition (where floor and
truncation coincide), and the three quoted examples hold. -/
theorem format_duration_nonneg_matches_spec :
    (∀ s : Int, 0 ≤ s → format_duration s = format_duration_spec s) ∧
    format_duration 0 = "0 seconds" ∧
    format_duration 3661 = "1 hour, 1 minute, 1 second" ∧
    format_duration 7200 = "2 hours" := by
  refine ⟨?_, by decide, by decide, by decide⟩
  intro s hs
  have hrn : 0 ≤ s % 3600 := Int.emod_nonneg s (by norm_num)
  have t1 : Int.tdiv s 3600 = s / 3600 := Int.tdiv_eq_ediv hs (by norm_num)
  have t2 : Int.tmod s 3600 = s % 3600 := Int.tmod_eq_emod hs (by norm_num)
  have t3 : Int.tdiv (s % 3600) 60 = s % 3600 / 60 :=
    Int.tdiv_eq_ediv hrn (by norm_num)
  have t4 : Int.tmod (s % 3600) 60 = s % 3600 % 60 :=
    Int.tmod_eq_emod hrn (by norm_num)
  have g1 : (s / 3600 > 0) ↔ (s / 3600 ≠ 0) := by omega
  have g2 : (s % 3600 / 60 > 0) ↔ (s % 3600 / 60 ≠ 0) := by omega
  have g3 : (s % 3600 % 60 > 0) ↔ (s % 3600 % 60 ≠ 0) := by omega
  simp only [format_duration, format_duration_spec, durHours_eq, durMinutes_eq,
    durSecs_eq, t2, t1, t3, t4, g1, g2, g3]

/-- Witness for claim C1 at the concrete input 3661. -/
theorem format_duration_nonneg_matches_spec_witness :
    (0 : Int) ≤ 3661 ∧ format_duration 3661 = format_duration_spec 3661 :=
  ⟨by decide, format_duration_nonneg_matches_spec.1 3661 (by decide)⟩

/-- Claim C2 (counterexample): at the nonzero input -1 the string names 59
minutes and 59 seconds, which re-sum to 3599, not -1. -/
theorem duration_resum_counterexample :
    emittedDurationSum (-1) = 3599 ∧
    format_duration (-1) = "59 minutes, 59 seconds" ∧
    ((-1 : Int) ≠ 0) ∧ ((3599 : Int) ≠ -1) := by decide

/-- Claim C2 (amended): for every positive input, the components named in
the formatted string re-sum to the input. -/
theorem duration_components_resum (s : Int) (hs : 0 < s) :
    emittedDurationSum s = s := by
  unfold emittedDurationSum
  rw [durHours_eq, durMinutes_eq, durSecs_eq]
  split_ifs <;> omega

/-- Witness for claim C2 at the concrete input 3661. -/
theorem duration_components_resum_witness :
    (0 : Int) < 3661 ∧ emittedDurationSum 3661 = 3661 :=
  ⟨by decide, duration_components_resum 3661 (by decide)⟩

/-- Claim C3: for every string input, `format_time` either renders the
parsed timestamp (after replacing "Z" by "+00:00") as a 12-hour clock time
or returns the input unchanged, and the two quoted examples hold. -/
theorem format_time_fallback_and_examples :
    (∀ s : String,
      (∃ dt, datetime_fromisoformat (pyReplace s "Z" "+00:00") = some dt ∧
        format_time s = strftime_IMp dt) ∨ format_time s = s) ∧
    format_time "2024-01-01T22:30:00Z" = "10:30 PM" ∧
    format_time "not-a-date" = "not-a-date" := by
  refine ⟨?_, by decide, by decide⟩
  intro s
  by_cases hempty : s = ""
  · subst hempty; right; rfl
  · rcases h : datetime_fromisoformat (pyReplace s "Z" "+00:00") with _ | dt
    · right; simp [format_time, hempty, h]
    · left; exact ⟨dt, rfl, by simp [format_time, hempty, h]⟩

/-- Claim C4: the daily_readiness transform keeps exactly the pairs whose
key is not `id`, does not end in `_timestamp`, and is not `timestamp`,
with values unchanged; on the quoted four-key record only `score` stays. -/
theorem readiness_transform_drops_and_passes :
    (∀ (item : List (String × Json)) (k : String) (v : Json),
      ((k, v) ∈ transformReadinessItem item ↔
        ((k, v) ∈ item ∧ k ≠ "id" ∧ pyEndsWith k "_timestamp" = false ∧
          k ≠ "timestamp"))) ∧
    (∀ v1 v2 v3 v4 : Json,
      transformReadinessItem
        [("id", v1), ("timestamp", v2), ("bedtime_timestamp", v3), ("score", v4)] =
        [("score", v4)]) := by
  constructor
  · intro item k v
    simp [transformReadinessItem, List.mem_filter, and_assoc]
  · intro v1 v2 v3 v4; rfl

theorem transformSleepItem_destruct (item out : List (String × Json))
    (h : transformSleepItem item = some out) :
    ∃ awake deep light rem total inBed bstart bend rf,
      durationField item "awake_time" = some awake ∧
      durationField item "deep_sleep_duration" = some deep ∧
      durationField item "light_sleep_duration" = some light ∧
      durationField item "rem_sleep_duration" = some rem ∧
      durationField item "total_sleep_duration" = some total ∧
      durationField item "time_in_bed" = some inBed ∧
      timeField item "bedtime_start" = some bstart ∧
      timeField item "bedtime_end" = some bend ∧
      readinessFields item = some rf ∧
      out = sleepBase item awake deep light rem total inBed bstart bend ++
        sleepReadinessPairs rf := by
  simp only [transformSleepItem, bind, Option.bind_eq_some, Option.pure_def,
    Option.some.injEq] at h
  obtain ⟨a, ha, b, hb, c, hc, d, hd, e, he, f, hf, g, hg, i, hi, rf, hrf, hout⟩ := h
  exact ⟨a, b, c, d, e, f, g, i, rf, ha, hb, hc, hd, he, hf, hg, hi, hrf, hout.symm⟩

/-- Claim C5: the readiness keys appear in a transformed sleep record only
if the input record has a `readiness` key; without one, neither
`readiness_score` nor `readiness_contributors` is in the output. -/
theorem sleep_readiness_keys_require_readiness (item out : List (String × Json))
    (h : transformSleepItem item = some out) :
    (item.lookup "readiness" = none →
      out.lookup "readiness_score" = none ∧
      out.lookup "readiness_contributors" = none) ∧
    ((out.lookup "readiness_score" ≠ none ∨
      out.lookup "readiness_contributors" ≠ none) →
      item.lookup "readiness" ≠ none) := by
  obtain ⟨a, b, c, d, e, f, g, i, rf, ha, hb, hc, hd, he, hf, hg, hi, hrf, hout⟩ :=
    transformSleepItem_destruct item out h
  have key : item.lookup "readiness" = none →
      out.lookup "readiness_score" = none ∧
      out.lookup "readiness_contributors" = none := by
    intro hn
    have hrf2 : readinessFields item = some (Json.null, Json.obj []) := by
      unfold readinessFields pyGetD
      rw [hn]
      rfl
    rw [hrf2] at hrf
    obtain rfl : (Json.null, Json.obj []) = rf := by injection hrf
    subst hout
    constructor <;> rfl
  refine ⟨key, ?_⟩
  rintro (hs | hc2) hn
  · exact hs (key hn).1
  · exact hc2 (key hn).2

/-- Witness for claim C5: an empty sleep record transforms successfully
and its output holds neither readiness key. -/
theorem sleep_readiness_keys_require_readiness_witness :
    List.lookup "readiness_score" sleepEmptyOut = none ∧
    List.lookup "readiness_contributors" sleepEmptyOut = none :=
  (sleep_readiness_keys_require_readiness [] sleepEmptyOut rfl).1 rfl

theorem editDailySleepFields_mem (l out : List (String × Json))
    (h : editDailySleepFields l = some out) (k : String) (v : Json)
    (hk : k ≠ "total_sleep_duration") : ((k, v) ∈ out ↔ (k, v) ∈ l) := by
  induction l generalizing out with
  | nil =>
    simp only [editDailySleepFields, Option.some.injEq] at h
    subst h
    rfl
  | cons kv rest ih =>
    simp only [editDailySleepFields, bind, Option.bind_eq_some, Option.pure_def,
      Option.some.injEq] at h
    obtain ⟨kv2, hkv2, rest2, hrest2, hout⟩ := h
    subst hout
    rw [List.mem_cons, List.mem_cons, ih rest2 hrest2]
    unfold editDailySleepField at hkv2
    by_cases htsd : kv.1 = "total_sleep_duration"
    · rw [if_pos htsd] at hkv2
      obtain ⟨n, hn, hkv2'⟩ := Option.map_eq_some'.mp hkv2
      constructor
      · rintro (heq | hmem)
        · exfalso
          apply hk
          have : (k, v).1 = kv2.1 := by rw [heq]
          rw [← hkv2'] at this
          exact this.trans htsd ▸ rfl
        · exact Or.inr hmem
      · rintro (heq | hmem)
        · exfalso
          apply hk
          have : (k, v).1 = kv.1 := by rw [heq]
          exact this.trans htsd
        · exact Or.inr hmem
    · rw [if_neg htsd] at hkv2
      obtain rfl : kv = kv2 := Option.some.inj hkv2
      rfl

theorem editDailySleepFields_formats (l out : List (String × Json))
    (h : editDailySleepFields l = some out) (w : Json) (n : Int)
    (hw : ("total_sleep_duration", w) ∈ l) (hn : jsonToSeconds w = some n) :
    ("total_sleep_duration", Json.str (format_duration n)) ∈ out := by
  induction l generalizing out with
  | nil => cases hw
  | cons kv rest ih =>
    obtain ⟨k1, v1⟩ := kv
    simp only [editDailySleepFields, bind, Option.bind_eq_some, Option.pure_def,
      Option.some.injEq] at h
    obtain ⟨kv2, hkv2, rest2, hrest2, hout⟩ := h
    subst hout
    rcases List.mem_cons.mp hw with heq | hmem
    · rw [Prod.mk.injEq] at heq
      obtain ⟨hk1, hv1⟩ := heq
      subst hk1
      subst hv1
      unfold editDailySleepField at hkv2
      rw [if_pos rfl, hn] at hkv2
      obtain rfl : ("total_sleep_duration", Json.str (format_duration n)) = kv2 :=
        Option.some.inj hkv2
      exact List.Mem.head _
    · exact List.Mem.tail _ (ih rest2 hrest2 hmem)

theorem editDailySleepFields_pins (l out : List (String × Json))
    (h : editDailySleepFields l = some out) (v : Json)
    (hv : ("total_sleep_duration", v) ∈ out) :
    ∃ (w : Json) (n : Int), ("total_sleep_duration", w) ∈ l ∧
      jsonToSeconds w = some n ∧ v = Json.str (format_duration n) := by
  induction l generalizing out with
  | nil =>
    simp only [editDailySleepFields, Option.some.injEq] at h
    subst h
    cases hv
  | cons kv rest ih =>
    obtain ⟨k1, v1⟩ := kv
    simp only [editDailySleepFields, bind, Option.bind_eq_some, Option.pure_def,
      Option.some.injEq] at h
    obtain ⟨kv2, hkv2, rest2, hrest2, hout⟩ := h
    subst hout
    rcases List.mem_cons.mp hv with heq | hmem
    · unfold editDailySleepField at hkv2
      by_cases htsd : k1 = "total_sleep_duration"
      · subst htsd
        rw [if_pos rfl] at hkv2
        obtain ⟨n, hn, hkv2'⟩ := Option.map_eq_some'.mp hkv2
        refine ⟨v1, n, List.Mem.head _, hn, ?_⟩
        have h2 := heq.trans hkv2'.symm
        exact congrArg Prod.snd h2
      · rw [if_neg htsd] at hkv2
        obtain rfl : (k1, v1) = kv2 := Option.some.inj hkv2
        exact absurd (congrArg Prod.fst heq).symm htsd
    · obtain ⟨w, n, hw, hn, hv2⟩ := ih rest2 hrest2 hmem
      exact ⟨w, n, List.Mem.tail _ hw, hn, hv2⟩

/-- Claim C6: for every daily_sleep record, the transform drops `id`,
passes every other field through unchanged, and handles
`total_sleep_duration` universally: whenever the input holds it with an
integral value, the output holds it with exactly the duration-formatted
string, and every `total_sleep_duration` pair in the output arises that
way from the input; end-to-end, the method applied to the stubbed
200-status vendor response with `total_sleep_duration` 27000 and an `id`
returns the data object with "7 hours, 30 minutes" and no `id` field. -/
theorem daily_sleep_transform_correct :
    (∀ item out, transformDailySleepItem item = some out →
      ((∀ v : Json, ("id", v) ∉ out) ∧
       (∀ (k : String) (v : Json), k ≠ "total_sleep_duration" →
         (((k, v) ∈ out) ↔ ((k, v) ∈ item ∧ k ≠ "id"))) ∧
       (∀ (w : Json) (n : Int), ("total_sleep_duration", w) ∈ item →
         jsonToSeconds w = some n →
         ("total_sleep_duration", Json.str (format_duration n)) ∈ out) ∧
       (∀ v : Json, ("total_sleep_duration", v) ∈ out →
         ∃ (w : Json) (n : Int), ("total_sleep_duration", w) ∈ item ∧
           jsonToSeconds w = some n ∧ v = Json.str (format_duration n)))) ∧
    (clientCall
        (Except.ok (HttpResponse.mk 200 ""
          (Json.obj [("data", Json.arr [Json.obj dailySleepItem0])])))
        transformDailySleepItem =
      Except.ok (Json.obj [("data", Json.arr [Json.obj dailySleepOut0])])) := by
  constructor
  · intro item out h
    unfold transformDailySleepItem at h
    refine ⟨?_, ?_, ?_, ?_⟩
    · intro v hmem
      have h2 := (editDailySleepFields_mem _ _ h "id" v (by decide)).mp hmem
      have h3 := (List.mem_filter.mp h2).2
      simp at h3
    · intro k v hk
      rw [editDailySleepFields_mem _ _ h k v hk, List.mem_filter]
      simp
    · intro w n hw hn
      refine editDailySleepFields_formats _ _ h w n ?_ hn
      exact List.mem_filter.mpr ⟨hw, rfl⟩
    · intro v hv
      obtain ⟨w, n, hw, hn, hv2⟩ := editDailySleepFields_pins _ _ h v hv
      exact ⟨w, n, (List.mem_filter.mp hw).1, hn, hv2⟩
  · rfl

/-- Witness for claim C6: applied to the stubbed record, no `id` pair is
in the output and the formatted `total_sleep_duration` pair is. -/
theorem daily_sleep_transform_correct_witness :
    ("id", Json.str "abc") ∉ dailySleepOut0 ∧
    ("total_sleep_duration", Json.str "7 hours, 30 minutes") ∈ dailySleepOut0 :=
  ⟨(daily_sleep_transform_correct.1 dailySleepItem0 dailySleepOut0 rfl).1
     (Json.str "abc"),
   (daily_sleep_transform_correct.1 dailySleepItem0 dailySleepOut0 rfl).2.2.1
     (Json.int 27000) 27000 (List.Mem.tail _ (List.Mem.head _)) rfl⟩

/-- Claim C7 (counterexample): 201 is a 2xx status, yet the status check
fails on it, because the code compares against 200 rather than the 2xx
range. -/
theorem raiseForStatus_2xx_counterexample :
    (200 ≤ 201 ∧ 201 < 300) ∧
    raiseForStatus (HttpResponse.mk 201 "Created" Json.null) =
      Except.error "Error 201: Created" := ⟨by decide, rfl⟩

/-- Claim C7 (amended): the fetch step fails with an error carrying the
status and body exactly when the status differs from 200, and succeeds
with the body on 200. -/
theorem raiseForStatus_error_iff_status_ne_200 (resp : HttpResponse) :
    (resp.status_code ≠ 200 →
      raiseForStatus resp =
        Except.error ("Error " ++ toString resp.status_code ++ ": " ++ resp.text)) ∧
    (resp.status_code = 200 → raiseForStatus resp = Except.ok resp.jsonBody) := by
  unfold raiseForStatus
  constructor <;> intro h <;> simp [h]

/-- Witness for claim C7 at statuses 404 and 200. -/
theorem raiseForStatus_error_iff_status_ne_200_witness :
    raiseForStatus (HttpResponse.mk 404 "Not Found" Json.null) =
      Except.error "Error 404: Not Found" ∧
    raiseForStatus (HttpResponse.mk 200 "OK" (Json.int 1)) = Except.ok (Json.int 1) :=
  ⟨(raiseForStatus_error_iff_status_ne_200
      (HttpResponse.mk 404 "Not Found" Json.null)).1 (by decide),
   (raiseForStatus_error_iff_status_ne_200
      (HttpResponse.mk 200 "OK" (Json.int 1))).2 rfl⟩

theorem except_bind_ok {ε α β : Type} (x : Except ε α) (f : α → Except ε β)
    (b : β) (h : (x >>= f) = Except.ok b) :
    ∃ a, x = Except.ok a ∧ f a = Except.ok b := by
  cases x with
  | error e => simp [Bind.bind, Except.bind] at h
  | ok a => exact ⟨a, rfl, by simpa [Bind.bind, Except.bind] using h⟩

theorem endpointTransform_shape
    (f : List (String × Json) → Option (List (String × Json)))
    (raw j : Json) (h : endpointTransform f raw = some j) :
    ∃ arr, j = Json.obj [("data", Json.arr arr)] := by
  simp only [endpointTransform, bind, Option.bind_eq_some, Option.pure_def,
    Option.some.injEq] at h
  obtain ⟨items, hitems, out, hout, hj⟩ := h
  exact ⟨out, hj.symm⟩

theorem clientCall_ok_shape (resp : Except String HttpResponse)
    (f : List (String × Json) → Option (List (String × Json))) (j : Json)
    (h : clientCall resp f = Except.ok j) :
    ∃ arr, j = Json.obj [("data", Json.arr arr)] := by
  unfold clientCall at h
  split at h
  · simp at h
  · split at h
    · simp at h
    · split at h
      · rename_i rsp r0 x1 raw heq1 x0 v heq2
        simp only [Except.ok.injEq] at h
        subst h
        exact endpointTransform_shape f raw _ heq2
      · simp at h

theorem toolResult_shaped (pfx : String) (r : Except PyError Json)
    (h : ∀ j, r = Except.ok j → ∃ arr, j = Json.obj [("data", Json.arr arr)]) :
    resultShaped (toolResult pfx r) := by
  cases r with
  | error pe =>
    cases pe with
    | valueError m => right; exact ⟨m, "invalid_token", rfl⟩
    | exception m => right; exact ⟨pfx ++ m, "api_error", rfl⟩
  | ok j =>
    left
    exact h j rfl

theorem dateRangeTool_shaped (pfx : String)
    (f : List (String × Json) → Option (List (String × Json)))
    (env : Env) (t s e : String) :
    resultShaped (dateRangeTool pfx f env t s e) := by
  unfold dateRangeTool
  apply toolResult_shaped
  intro j hj
  obtain ⟨u1, h1, hj⟩ := except_bind_ok _ _ _ hj
  obtain ⟨u2, h2, hj⟩ := except_bind_ok _ _ _ hj
  obtain ⟨u3, h3, hj⟩ := except_bind_ok _ _ _ hj
  exact clientCall_ok_shape _ _ _ hj

theorem todayTool_shaped (pfx : String)
    (f : List (String × Json) → Option (List (String × Json)))
    (env : Env) (t : String) :
    resultShaped (todayTool pfx f env t) := by
  unfold todayTool
  apply toolResult_shaped
  intro j hj
  obtain ⟨u1, h1, hj⟩ := except_bind_ok _ _ _ hj
  exact clientCall_ok_shape _ _ _ hj

/-- Claim C8: every invocation of each of the six tools, under every
environment (vendor and transport outcome) and every argument, produces
either a data object or a kind-tagged error object, and an empty token
always produces the `invalid_token` error object. -/
theorem tools_always_result_shaped :
    (∀ env t s e, resultShaped (get_sleep_data_tool env t s e)) ∧
    (∀ env t s e, resultShaped (get_readiness_data_tool env t s e)) ∧
    (∀ env t s e, resultShaped (get_resilience_data_tool env t s e)) ∧
    (∀ env t, resultShaped (get_today_sleep_data_tool env t)) ∧
    (∀ env t, resultShaped (get_today_readiness_data_tool env t)) ∧
    (∀ env t, resultShaped (get_today_resilience_data_tool env t)) ∧
    (∀ env s e, get_sleep_data_tool env "" s e = emptyTokenError) ∧
    (∀ env s e, get_readiness_data_tool env "" s e = emptyTokenError) ∧
    (∀ env s e, get_resilience_data_tool env "" s e = emptyTokenError) ∧
    (∀ env, get_today_sleep_data_tool env "" = emptyTokenError) ∧
    (∀ env, get_today_readiness_data_tool env "" = emptyTokenError) ∧
    (∀ env, get_today_resilience_data_tool env "" = emptyTokenError) :=
  ⟨fun env t s e => dateRangeTool_shaped _ _ env t s e,
   fun env t s e => dateRangeTool_shaped _ _ env t s e,
   fun env t s e => dateRangeTool_shaped _ _ env t s e,
   fun env t => todayTool_shaped _ _ env t,
   fun env t => todayTool_shaped _ _ env t,
   fun env t => todayTool_shaped _ _ env t,
   fun _ _ _ => rfl, fun _ _ _ => rfl, fun _ _ _ => rfl,
   fun _ => rfl, fun _ => rfl, fun _ => rfl⟩

/-- Claim C9 (counterexample): a malformed date produces an error tagged
with the same kind label, `invalid_token`, that an empty token produces —
not a distinct InvalidDateFormat kind. -/
theorem invalid_date_kind_counterexample :
    get_sleep_data_tool okDataEnv "tok" "not-a-date" "2024-01-02" =
      Json.obj [("error",
        Json.str "Invalid date format: not-a-date. Expected format: YYYY-MM-DD"),
        ("type", Json.str "invalid_token")] ∧
    get_sleep_data_tool okDataEnv "" "2024-01-01" "2024-01-02" =
      Json.obj [("error", Json.str "Access token is required"),
        ("type", Json.str "invalid_token")] := ⟨rfl, rfl⟩

/-- Claim C9 (amended): with a nonempty, probe-accepted token, each
date-taking tool turns a malformed date into a descriptive error message,
but tags it `invalid_token` — the tag shared with token errors. -/
theorem invalid_date_tagged_invalid_token (env : Env) (t sd ed : String)
    (ht : t ≠ "") (hv : validate_oura_token env.probeStatus = true)
    (hd : date_fromisoformat sd = none) :
    get_sleep_data_tool env t sd ed =
      Json.obj [("error",
        Json.str ("Invalid date format: " ++ sd ++ ". Expected format: YYYY-MM-DD")),
        ("type", Json.str "invalid_token")] ∧
    get_readiness_data_tool env t sd ed =
      Json.obj [("error",
        Json.str ("Invalid date format: " ++ sd ++ ". Expected format: YYYY-MM-DD")),
        ("type", Json.str "invalid_token")] ∧
    get_resilience_data_tool env t sd ed =
      Json.obj [("error",
        Json.str ("Invalid date format: " ++ sd ++ ". Expected format: YYYY-MM-DD")),
        ("type", Json.str "invalid_token")] := by
  refine ⟨?_, ?_, ?_⟩ <;>
    simp [get_sleep_data_tool, get_readiness_data_tool, get_resilience_data_tool,
      dateRangeTool, create_oura_client, parse_date, ht, hv, hd,
      Bind.bind, Except.bind, toolResult]

/-- Witness for claim C9 at the concrete malformed date "not-a-date". -/
theorem invalid_date_tagged_invalid_token_witness :
    ("tok" ≠ "") ∧
    (validate_oura_token okDataEnv.probeStatus = true) ∧
    (date_fromisoformat "not-a-date" = none) ∧
    get_sleep_data_tool okDataEnv "tok" "not-a-date" "2024-01-02" =
      Json.obj [("error",
        Json.str ("Invalid date format: " ++ "not-a-date" ++
          ". Expected format: YYYY-MM-DD")),
        ("type", Json.str "invalid_token")] :=
  ⟨by decide, rfl, rfl,
    (invalid_date_tagged_invalid_token okDataEnv "tok" "not-a-date" "2024-01-02"
      (by decide) rfl rfl).1⟩

theorem durationField_default (item : List (String × Json)) (key : String)
    (hno : item.lookup key = none) : durationField item key = some "0 seconds" := by
  unfold durationField pyGetD
  rw [hno]
  rfl

/-- Claim C10: whatever keys a sleep record has, a successful transform
emits exactly the sixteen fixed keys in order (optionally followed by the
two readiness keys), and each of the six duration fields missing from the
input appears as the string "0 seconds". -/
theorem sleep_output_fixed_keys_and_defaults (item out : List (String × Json))
    (h : transformSleepItem item = some out) :
    (out.map Prod.fst = sleepFixedKeys ∨
      out.map Prod.fst =
        sleepFixedKeys ++ ["readiness_score", "readiness_contributors"]) ∧
    (item.lookup "awake_time" = none →
      out.lookup "awake_time" = some (Json.str "0 seconds")) ∧
    (item.lookup "deep_sleep_duration" = none →
      out.lookup "deep_sleep_duration" = some (Json.str "0 seconds")) ∧
    (item.lookup "light_sleep_duration" = none →
      out.lookup "light_sleep_duration" = some (Json.str "0 seconds")) ∧
    (item.lookup "rem_sleep_duration" = none →
      out.lookup "rem_sleep_duration" = some (Json.str "0 seconds")) ∧
    (item.lookup "total_sleep_duration" = none →
      out.lookup "total_sleep_duration" = some (Json.str "0 seconds")) ∧
    (item.lookup "time_in_bed" = none →
      out.lookup "time_in_bed" = some (Json.str "0 seconds")) := by
  obtain ⟨a, b, c, d, e, f, g, i, rf, ha, hb, hc, hd, he, hf, hg, hi, hrf, hout⟩ :=
    transformSleepItem_destruct item out h
  subst hout
  refine ⟨?_, ?_, ?_, ?_, ?_, ?_, ?_⟩
  · rw [List.map_append]
    rcases hn : rf.1.isNull with _ | _
    · right
      simp only [sleepReadinessPairs, hn, Bool.false_eq_true, if_false]
      rfl
    · left
      simp only [sleepReadinessPairs, hn, if_true]
      rfl
  · intro hno
    obtain rfl : a = "0 seconds" := by
      have h2 := durationField_default item "awake_time" hno
      rw [ha] at h2
      exact Option.some.inj h2
    rfl
  · intro hno
    obtain rfl : b = "0 seconds" := by
      have h2 := durationField_default item "deep_sleep_duration" hno
      rw [hb] at h2
      exact Option.some.inj h2
    rfl
  · intro hno
    obtain rfl : c = "0 seconds" := by
      have h2 := durationField_default item "light_sleep_duration" hno
      rw [hc] at h2
      exact Option.some.inj h2
    rfl
  · intro hno
    obtain rfl : d = "0 seconds" := by
      have h2 := durationField_default item "rem_sleep_duration" hno
      rw [hd] at h2
      exact Option.some.inj h2
    rfl
  · intro hno
    obtain rfl : e = "0 seconds" := by
      have h2 := durationField_default item "total_sleep_duration" hno
      rw [he] at h2
      exact Option.some.inj h2
    rfl
  · intro hno
    obtain rfl : f = "0 seconds" := by
      have h2 := durationField_default item "time_in_bed" hno
      rw [hf] at h2
      exact Option.some.inj h2
    rfl

/-- Witness for claim C10: an empty sleep record transforms into the fixed
sixteen keys with every duration defaulted to "0 seconds". -/
theorem sleep_output_fixed_keys_and_defaults_witness :
    (List.map Prod.fst sleepEmptyOut = sleepFixedKeys ∨
      List.map Prod.fst sleepEmptyOut =
        sleepFixedKeys ++ ["readiness_score", "readiness_contributors"]) ∧
    List.lookup "awake_time" sleepEmptyOut = some (Json.str "0 seconds") :=
  ⟨(sleep_output_fixed_keys_and_defaults [] sleepEmptyOut rfl).1,
   (sleep_output_fixed_keys_and_defaults [] sleepEmptyOut rfl).2.1 rfl⟩
